import Mathlib

/-!
Shallow embedding of `src/kleio/core/wrapper.py` (bouthilx/kleio): the
single-trial execution orchestrator.  The `Consumer` class, its `consume`,
`_consume` and `launch_process` methods and the module-level coroutines
`update`, `log_stream` and `execute` are translated into pure Lean
functions.  Side effects (status transitions, persistence calls, printed
operator guidance, process spawn, task joins and cancellation) are recorded
in explicit event traces; exceptions become explicit outcome values.

External collaborators (the `Trial` handle from `kleio.core.trial.base` and
the `Database`) are not part of the analysed source; their operations are
modelled from the spec where noted.
-/

namespace Kleio

/-- Trial status enum: `pending → reserved → running → {completed | broken |
suspended}` (spec §4.5). -/
inductive Status where
  | pending
  | reserved
  | running
  | completed
  | broken
  | suspended
deriving DecidableEq, Repr

/-- The borrowed trial handle: identity, command line, status, the two
append-only output buffers (`_stdout`, `_stderr` in the source) and the
last-heartbeat timestamp (spec §3). -/
structure Trial where
  id : String
  shortId : String
  commandline : String
  status : Status
  stdoutLog : List String
  stderrLog : List String
  lastHeartbeat : Nat
deriving DecidableEq, Repr

/-- Modelled from the spec: `trial.reserve()` is a trial-handle operation of
the external store; on success it moves the trial to `reserved`
(spec §4.5 `pending → reserved`).  On failure it raises without mutating the
status; `Consumer.consume` below takes the success of the whole `try` block
as an explicit boolean input. -/
def Trial.reserve (t : Trial) : Trial := { t with status := .reserved }

/-- Modelled from the spec: `trial.running()` marks the trial `running`
(spec §6 lists `mark-running` and `persist` as separate trial-handle
operations; persistence is the separate `trial.save()` call). -/
def Trial.running (t : Trial) : Trial := { t with status := .running }

/-- Modelled from the spec: `trial.complete()` marks the trial `completed`. -/
def Trial.complete (t : Trial) : Trial := { t with status := .completed }

/-- Modelled from the spec: `trial.broken()` marks the trial `broken`. -/
def Trial.broken (t : Trial) : Trial := { t with status := .broken }

/-- Modelled from the spec: `trial.suspend()` marks the trial `suspended`. -/
def Trial.suspend (t : Trial) : Trial := { t with status := .suspended }

/-- Modelled from the spec: `trial.heartbeat()` writes a fresh liveness
timestamp (spec §4.4). -/
def Trial.heartbeat (t : Trial) (now : Nat) : Trial := { t with lastHeartbeat := now }

/-- Exceptions that can cross `launch_process`'s `try` block:
`KeyboardInterrupt` or any other `BaseException`. -/
inductive Exc where
  | keyboardInterrupt
  | unexpected
deriving DecidableEq, Repr

/-- Observable side effects of one `consume` call, in program order. -/
inductive Event where
  | setStatus (s : Status)
  | save (s : Status)
  | printReserveBroken (shortId : String)
  | printBroken (shortId : String)
  | printInterrupt (shortId : String)
  | sysExitEv (code : Nat)
  | ensureWorkingDir (dir : String)
  | spawn (argv : List String)
  | joinTasks
  | cancelHeartbeat
  | readExitCode (code : Int)
  | loopClose
  | raiseEv (e : Exc)
deriving DecidableEq, Repr

/-- Side effects of the heartbeat coroutine `update`, in program order. -/
inductive HbEvent where
  | sleep
  | heartbeatEv
  | save
  | sleepInterrupted
  | reraiseCancel
deriving DecidableEq, Repr

/-- Python's `str.rstrip()` whitespace set (ASCII part relevant here). -/
def isPyWhitespace (c : Char) : Bool :=
  c = ' ' || c = '\t' || c = '\n' || c = '\r' || c = '\x0c' || c = '\x0b'

/-- Python's `data.rstrip()`: drop trailing whitespace characters. -/
def pyRstrip (s : String) : String :=
  String.mk ((s.data.reverse.dropWhile isPyWhitespace).reverse)

/-- `data.decode('ascii').rstrip()` from `log_stream` (line 195); decoding is
the identity on the abstract string carrying the bytes. -/
def decodeLine (data : String) : String := pyRstrip data

/-- Embedding of the coroutine `log_stream(stdlist, stream, capture)`
(lines 190–198).  The stream is the finite list of `readline` results until
end-of-stream.  Returns the final buffer and the list of lines printed live.
Empty reads are skipped by `if data:`. -/
def log_stream (stdlist : List String) (stream : List String) (capture : Bool) :
    List String × List String :=
  match stream with
  | [] => (stdlist, [])
  | d :: rest =>
      if d = "" then log_stream stdlist rest capture
      else
        let line := decodeLine d
        let r := log_stream (stdlist ++ [line]) rest capture
        (r.1, (if capture then [] else [line]) ++ r.2)

/-- Python's `commandline.split(" ")` (line 208): split at every single
space character, keeping empty fields between consecutive spaces. -/
def pySplitSpaceAux : List Char → List Char → List (List Char)
  | [], acc => [acc.reverse]
  | c :: rest, acc =>
      if c = ' ' then acc.reverse :: pySplitSpaceAux rest []
      else pySplitSpaceAux rest (c :: acc)

/-- `trial.commandline.split(" ")` as used in `execute` (line 208). -/
def pySplitSpace (s : String) : List String :=
  (pySplitSpaceAux s.data []).map String.mk

/-- From the spec's words only (for claim C9): "the command line split into
an argument vector on whitespace", i.e. Python's `str.split()` with no
argument — split on runs of any whitespace, discarding empty fields. -/
def specWhitespaceSplitAux : List Char → List Char → List (List Char)
  | [], acc => [acc.reverse]
  | c :: rest, acc =>
      if isPyWhitespace c then acc.reverse :: specWhitespaceSplitAux rest []
      else specWhitespaceSplitAux rest (c :: acc)

/-- Whitespace splitting as the spec describes it (claim C9's reference
definition, not the source's). -/
def specWhitespaceSplit (s : String) : List String :=
  ((specWhitespaceSplitAux s.data []).map String.mk).filter (· ≠ "")

/-- Environment as an association list; `setVar` is Python's `env[k] = v`. -/
def setVar (env : List (String × String)) (k v : String) : List (String × String) :=
  (k, v) :: env.filter (fun p => p.1 ≠ k)

/-- `env.get(k)`-style lookup. -/
def lookupVar (env : List (String × String)) (k : String) : Option String :=
  (env.find? (fun p => p.1 = k)).map (·.2)

/-- Python's `logging.getLevelName(n)` restricted to ints: the registered
name for the standard levels, `"Level %s" % n` otherwise. -/
def getLevelName (n : Nat) : String :=
  if n = 50 then "CRITICAL"
  else if n = 40 then "ERROR"
  else if n = 30 then "WARNING"
  else if n = 20 then "INFO"
  else if n = 10 then "DEBUG"
  else if n = 0 then "NOTSET"
  else "Level " ++ toString n

/-- `level_to_verbose.get(name, 2)` (lines 147–152). -/
def levelToVerbose (s : String) : Nat :=
  if s = "WARNING" then 0
  else if s = "INFO" then 1
  else if s = "DEBUG" then 2
  else 2

/-- The `KLEIO_VERBOSITY` value injected into the child (lines 150–152):
`str(level_to_verbose.get(logging.getLevelName(effectiveLevel), 2))`. -/
def kleioVerbosity (effectiveLevel : Nat) : String :=
  toString (levelToVerbose (getLevelName effectiveLevel))

/-- The child environment built by `launch_process` (lines 141–152):
the host environment plus trial identity, database connection data and the
verbosity level. -/
def childEnv (base : List (String × String)) (trialId dbName dbType dbUri : String)
    (effectiveLevel : Nat) : List (String × String) :=
  setVar (setVar (setVar (setVar (setVar base
    "KLEIO_TRIAL_ID" trialId)
    "KLEIO_DB_NAME" dbName)
    "KLEIO_DB_TYPE" dbType)
    "KLEIO_DB_ADDRESS" dbUri)
    "KLEIO_VERBOSITY" (kleioVerbosity effectiveLevel)

/-- Embedding of the heartbeat coroutine `update(trial, sleep_time)`
(lines 178–187).  `beats` is the number of completed sleep/heartbeat/save
iterations before cancellation is delivered; cancellation arrives at the
only suspension point, mid-`asyncio.sleep`, where the `CancelledError` is
caught, one more `trial.save()` runs, and the error is re-raised. -/
def update (t : Trial) (sleepTime : Nat) : Nat → Trial × List HbEvent
  | 0 => (t, [.sleepInterrupted, .save, .reraiseCancel])
  | beats + 1 =>
      let t' := t.heartbeat (t.lastHeartbeat + sleepTime)
      let r := update t' sleepTime beats
      (r.1, .sleep :: .heartbeatEv :: .save :: r.2)

/-- Result of one `execute` run: the trial with updated buffers and
heartbeat, the supervisor's event trace, and the returned exit code. -/
structure ExecResult where
  trial : Trial
  events : List Event
  code : Int
deriving DecidableEq, Repr

/-- Embedding of the supervisor coroutine `execute(trial, cwd, env, capture,
sleep_time)` (lines 201–225): spawn the child from the space-split command
line, run the two collectors and the exit-wait to completion
(`asyncio.wait(tasks)`), cancel the heartbeat task, return
`proc.returncode`.  The child's behaviour is an input: its stdout/stderr
line streams, exit code, and the number of heartbeat iterations that
complete before cancellation. -/
def execute (t : Trial) (capture : Bool) (childStdout childStderr : List String)
    (exitCode : Int) (beats : Nat) (sleepTime : Nat) : ExecResult :=
  let argv := pySplitSpace t.commandline
  let outBuf := (log_stream t.stdoutLog childStdout capture).1
  let errBuf := (log_stream t.stderrLog childStderr capture).1
  let tJoined := { t with stdoutLog := outBuf, stderrLog := errBuf }
  let tFinal := (update tJoined sleepTime beats).1
  { trial := tFinal
    events := [.spawn argv, .joinTasks, .cancelHeartbeat, .readExitCode exitCode]
    code := exitCode }

/-- What the child/event-loop does during one `loop.run_until_complete`:
either the supervised execution completes and returns an exit code, or a
`KeyboardInterrupt` reaches `launch_process`'s handler, or some other
`BaseException` does. -/
inductive ChildBehavior where
  | runs (childStdout childStderr : List String) (exitCode : Int) (beats : Nat)
  | interrupted
  | faults
deriving DecidableEq, Repr

/-- Result of `launch_process`: either the return code or a propagated
exception. -/
inductive LaunchOutcome where
  | ok (code : Int)
  | raised (e : Exc)
deriving DecidableEq, Repr

/-- Trial, trace and outcome of one `launch_process` call. -/
structure LaunchResult where
  trial : Trial
  events : List Event
  outcome : LaunchOutcome
deriving DecidableEq, Repr

/-- The `Consumer` object (lines 74–80): `root_working_dir` is
`os.path.join(working_dir, 'kleio')` and `capture` the capture flag. -/
structure Consumer where
  root_working_dir : String
  capture : Bool
deriving DecidableEq, Repr

/-- `Consumer.__init__(working_dir, capture)`. -/
def Consumer.init (workingDir : String) (capture : Bool) : Consumer :=
  { root_working_dir := workingDir ++ "/kleio", capture := capture }

/-- Embedding of `Consumer.launch_process(trial, working_dir)`
(lines 139–175).  The environment construction is `childEnv` above; the
interesting control flow is the `try/except/finally` around
`loop.run_until_complete`: `KeyboardInterrupt` prints the `INTERRUPT`
guidance, suspends, saves and re-raises; any other `BaseException` marks
broken, saves and re-raises; `finally` closes the loop before either the
return or the propagation. -/
def Consumer.launch_process (c : Consumer) (t : Trial) (b : ChildBehavior)
    (sleepTime : Nat) : LaunchResult :=
  match b with
  | .runs childStdout childStderr exitCode beats =>
      let r := execute t c.capture childStdout childStderr exitCode beats sleepTime
      { trial := r.trial, events := r.events ++ [.loopClose], outcome := .ok r.code }
  | .interrupted =>
      { trial := t.suspend
        events := [.printInterrupt t.shortId, .setStatus .suspended,
                   .save .suspended, .loopClose, .raiseEv .keyboardInterrupt]
        outcome := .raised .keyboardInterrupt }
  | .faults =>
      { trial := t.broken
        events := [.setStatus .broken, .save .broken, .loopClose,
                   .raiseEv .unexpected]
        outcome := .raised .unexpected }

/-- `_consume`'s Python return value: the trial on exit code 0, `None` on a
nonzero code, or a propagated exception. -/
inductive StepOutcome where
  | someTrial
  | none
  | raised (e : Exc)
deriving DecidableEq, Repr

/-- Trial, trace and outcome of one `Consumer._consume` call. -/
structure StepResult where
  trial : Trial
  events : List Event
  outcome : StepOutcome
deriving DecidableEq, Repr

/-- Embedding of `Consumer._consume(trial, working_dir)` (lines 127–137):
mark running, launch the process, return the trial on exit code 0 and
`None` otherwise; exceptions from `launch_process` propagate. -/
def Consumer._consume (c : Consumer) (t : Trial) (b : ChildBehavior)
    (sleepTime : Nat) : StepResult :=
  let t1 := t.running
  let lr := c.launch_process t1 b sleepTime
  let evs := .setStatus Status.running :: lr.events
  match lr.outcome with
  | .raised e => { trial := lr.trial, events := evs, outcome := .raised e }
  | .ok code =>
      if code ≠ 0 then { trial := lr.trial, events := evs, outcome := .none }
      else { trial := lr.trial, events := evs, outcome := .someTrial }

/-- How one `Consumer.consume` call ends: a normal return, `sys.exit(code)`
(a `SystemExit` terminating the calling process with that code), or a
propagated exception. -/
inductive ConsumeOutcome where
  | ret
  | sysExit (code : Nat)
  | raised (e : Exc)
deriving DecidableEq, Repr

/-- Trial, trace and outcome of one `Consumer.consume` call. -/
structure ConsumeResult where
  trial : Trial
  events : List Event
  outcome : ConsumeOutcome
deriving DecidableEq, Repr

/-- Embedding of `Consumer.consume(trial)` (lines 82–125).  `reserveOk` is
whether the `trial.reserve(); trial.save()` block succeeds (the reservation
is the external store's decision).  On failure: guidance if the status is
`broken`, then `sys.exit(0)`.  On success: persist the reservation, ensure
the working directory, delegate to `_consume`, and map its outcome —
trial returned ⇒ `complete()` + `save()`; `None` ⇒ print `BROKEN` guidance,
`broken()` + `save()`; exceptions propagate. -/
def Consumer.consume (c : Consumer) (t : Trial) (reserveOk : Bool)
    (b : ChildBehavior) (sleepTime : Nat) : ConsumeResult :=
  if !reserveOk then
    { trial := t
      events := (if t.status = .broken then [.printReserveBroken t.shortId] else [])
                  ++ [.sysExitEv 0]
      outcome := .sysExit 0 }
  else
    let t1 := t.reserve
    let workingDir := c.root_working_dir ++ "/" ++ t.shortId
    let pre : List Event :=
      [.setStatus .reserved, .save .reserved, .ensureWorkingDir workingDir]
    let sr := c._consume t1 b sleepTime
    let evs := pre ++ sr.events
    match sr.outcome with
    | .raised e => { trial := sr.trial, events := evs, outcome := .raised e }
    | .someTrial =>
        { trial := sr.trial.complete
          events := evs ++ [.setStatus .completed, .save .completed]
          outcome := .ret }
    | .none =>
        { trial := sr.trial.broken
          events := evs ++ [.printBroken t.shortId, .setStatus .broken, .save .broken]
          outcome := .ret }

/-- A concrete consumer instance for closed evaluations. -/
def cEx : Consumer := Consumer.init "/tmp" false

/-- A concrete trial instance for closed evaluations. -/
def tEx : Trial :=
  { id := "abcdef", shortId := "abc", commandline := "echo hi",
    status := .pending, stdoutLog := [], stderrLog := [], lastHeartbeat := 0 }

end Kleio

namespace Kleio

theorem levelToVerbose_level (x : String) : levelToVerbose ("Level " ++ x) = 2 := by
  have hd : ("Level " ++ x).data = 'L' :: 'e' :: 'v' :: 'e' :: 'l' :: ' ' :: x.data := by
    rw [String.data_append]; rfl
  unfold levelToVerbose
  rw [if_neg, if_neg, if_neg]
  · intro h; rw [String.ext_iff, hd] at h; simp at h
  · intro h; rw [String.ext_iff, hd] at h; simp at h
  · intro h; rw [String.ext_iff, hd] at h; simp at h

theorem kleioVerbosity_default (lvl : Nat) (h30 : lvl ≠ 30) (h20 : lvl ≠ 20)
    (h10 : lvl ≠ 10) : kleioVerbosity lvl = "2" := by
  unfold kleioVerbosity getLevelName
  by_cases h50 : lvl = 50
  · subst h50; decide
  by_cases h40 : lvl = 40
  · subst h40; decide
  by_cases h0 : lvl = 0
  · subst h0; decide
  simp only [h50, h40, h30, h20, h10, h0, if_false, levelToVerbose_level]
  decide

theorem log_stream_eq (stream : List String) : ∀ (buf : List String) (capture : Bool),
    log_stream buf stream capture =
      (buf ++ (stream.filter (fun d => d ≠ "")).map decodeLine,
       if capture then [] else (stream.filter (fun d => d ≠ "")).map decodeLine) := by
  induction stream with
  | nil => intro buf capture; simp [log_stream]
  | cons d rest ih =>
      intro buf capture
      by_cases hd : d = ""
      · subst hd; simp [log_stream, ih]
      · simp only [log_stream, hd, if_false, ih, List.filter_cons]
        simp [hd]
        cases capture <;> simp

theorem update_trace (st : Nat) : ∀ (beats : Nat) (t : Trial),
    ((update t st beats).2.count HbEvent.save = beats + 1)
    ∧ ∃ pre, (update t st beats).2 = pre ++ [HbEvent.save, HbEvent.reraiseCancel] := by
  intro beats
  induction beats with
  | zero =>
      intro t
      exact ⟨rfl, ⟨[HbEvent.sleepInterrupted], rfl⟩⟩
  | succ k ih =>
      intro t
      obtain ⟨hcount, pre, hpre⟩ := ih (t.heartbeat (t.lastHeartbeat + st))
      refine ⟨?_, HbEvent.sleep :: HbEvent.heartbeatEv :: HbEvent.save :: pre, ?_⟩
      · simp [update, List.count_cons, hcount]
      · simp [update, hpre]

theorem splitAux_agree (l : List Char) :
    ∀ acc : List Char, (∀ c ∈ l, isPyWhitespace c → c = ' ') →
      specWhitespaceSplitAux l acc = pySplitSpaceAux l acc := by
  induction l with
  | nil => intro acc _; rfl
  | cons c rest ih =>
      intro acc h
      have hrest : ∀ d ∈ rest, isPyWhitespace d → d = ' ' :=
        fun d hd => h d (List.mem_cons_of_mem _ hd)
      by_cases hc : c = ' '
      · subst hc
        have h1 : specWhitespaceSplitAux (' ' :: rest) acc
            = acc.reverse :: specWhitespaceSplitAux rest [] := by
          simp [specWhitespaceSplitAux, isPyWhitespace]
        have h2 : pySplitSpaceAux (' ' :: rest) acc
            = acc.reverse :: pySplitSpaceAux rest [] := by
          simp [pySplitSpaceAux]
        rw [h1, h2, ih [] hrest]
      · have hw : isPyWhitespace c = false := by
          cases hiw : isPyWhitespace c
          · rfl
          · exact absurd (h c (List.mem_cons_self _ _) hiw) hc
        simp only [specWhitespaceSplitAux, pySplitSpaceAux, hw, if_neg hc,
                   Bool.false_eq_true, if_false]
        exact ih _ hrest

/-- C1: when reservation succeeds and the supervisor returns an exit code,
`consume` returns normally; exit code 0 marks the trial completed and
persists it, and any nonzero exit code marks it broken, persists it, and
prints the log-inspection / forced-re-execution guidance naming the trial's
short id, in that order at the end of the trace. -/
theorem consume_exit_code (c : Consumer) (t : Trial)
    (childStdout childStderr : List String) (code : Int) (beats st : Nat) :
    (Consumer.consume c t true (.runs childStdout childStderr code beats) st).outcome
      = ConsumeOutcome.ret
    ∧ (Consumer.consume c t true (.runs childStdout childStderr code beats) st).trial.status
      = (if code = 0 then Status.completed else Status.broken)
    ∧ ∃ pre, (Consumer.consume c t true (.runs childStdout childStderr code beats) st).events
      = pre ++ (if code = 0 then [Event.setStatus .completed, Event.save .completed]
                else [Event.printBroken t.shortId, Event.setStatus .broken,
                      Event.save .broken]) := by
  by_cases h0 : code = 0
  · subst h0
    exact ⟨rfl, rfl, ⟨_, rfl⟩⟩
  · refine ⟨?_, ?_, ⟨[Event.setStatus .reserved, Event.save .reserved,
      Event.ensureWorkingDir (c.root_working_dir ++ "/" ++ t.shortId),
      Event.setStatus .running, Event.spawn (pySplitSpace t.commandline),
      Event.joinTasks, Event.cancelHeartbeat, Event.readExitCode code,
      Event.loopClose], ?_⟩⟩ <;>
      simp [Consumer.consume, Consumer._consume, Consumer.launch_process, execute, h0,
            Trial.reserve, Trial.running, Trial.broken]

/-- C2: whenever `consume` ends by propagating an exception, the trace shows
the new status set and saved (then the event loop closed) strictly before
the re-raise, the final trial carries that status, and when the exception is
not the user interrupt the status is `broken`. -/
theorem consume_raise_persists (c : Consumer) (t : Trial) (reserveOk : Bool)
    (b : ChildBehavior) (st : Nat) (e : Exc)
    (h : (Consumer.consume c t reserveOk b st).outcome = ConsumeOutcome.raised e) :
    ∃ s pre, (Consumer.consume c t reserveOk b st).events
        = pre ++ [Event.setStatus s, Event.save s, Event.loopClose, Event.raiseEv e]
      ∧ (Consumer.consume c t reserveOk b st).trial.status = s
      ∧ (e ≠ Exc.keyboardInterrupt → s = Status.broken) := by
  cases reserveOk with
  | false => simp [Consumer.consume] at h
  | true =>
      cases b with
      | runs childStdout childStderr code beats =>
          by_cases h0 : code = 0 <;>
            simp [Consumer.consume, Consumer._consume, Consumer.launch_process,
                  execute, h0] at h
      | interrupted =>
          have he : e = Exc.keyboardInterrupt := by
            simpa [Consumer.consume, Consumer._consume, Consumer.launch_process,
                   eq_comm] using h
          subst he
          exact ⟨Status.suspended,
            [Event.setStatus .reserved, Event.save .reserved,
             Event.ensureWorkingDir (c.root_working_dir ++ "/" ++ t.shortId),
             Event.setStatus .running, Event.printInterrupt t.shortId],
            rfl, rfl, fun hne => absurd rfl hne⟩
      | faults =>
          have he : e = Exc.unexpected := by
            simpa [Consumer.consume, Consumer._consume, Consumer.launch_process,
                   eq_comm] using h
          subst he
          exact ⟨Status.broken,
            [Event.setStatus .reserved, Event.save .reserved,
             Event.ensureWorkingDir (c.root_working_dir ++ "/" ++ t.shortId),
             Event.setStatus .running],
            rfl, rfl, fun _ => rfl⟩

/-- C2 witness: a supervisor-level fault on a concrete trial leaves it
persisted as `broken` when the exception propagates. -/
theorem consume_raise_persists_witness :
    (Consumer.consume cEx tEx true .faults 10).trial.status = Status.broken := by
  obtain ⟨s, pre, hev, hst, himp⟩ :=
    consume_raise_persists cEx tEx true .faults 10 Exc.unexpected rfl
  rw [hst, himp (by decide)]

/-- C3: a user interrupt delivered during execution leaves the trial
suspended, with the suspension saved before the interrupt is re-raised, and
`consume` ends by propagating the interrupt to its caller — never
swallowing it. -/
theorem consume_interrupt_suspends (c : Consumer) (t : Trial) (st : Nat) :
    (Consumer.consume c t true .interrupted st).outcome
      = ConsumeOutcome.raised Exc.keyboardInterrupt
    ∧ (Consumer.consume c t true .interrupted st).trial.status = Status.suspended
    ∧ ∃ pre, (Consumer.consume c t true .interrupted st).events
        = pre ++ [Event.setStatus .suspended, Event.save .suspended,
                  Event.loopClose, Event.raiseEv Exc.keyboardInterrupt] :=
  ⟨rfl, rfl,
    ⟨[Event.setStatus .reserved, Event.save .reserved,
      Event.ensureWorkingDir (c.root_working_dir ++ "/" ++ t.shortId),
      Event.setStatus .running, Event.printInterrupt t.shortId], rfl⟩⟩

/-- C4 as stated is false on the code: on a failed reservation `consume`
does not return to its caller — `sys.exit(0)` ends the call by raising
`SystemExit`, shown here on a concrete broken trial. -/
theorem consume_reserve_fail_not_return :
    (Consumer.consume cEx { tEx with status := .broken } false
        (.runs [] [] 0 0) 10).outcome ≠ ConsumeOutcome.ret := by
  decide

/-- C4 amended: a failed reservation leaves the trial (in particular its
status) completely unmutated, performs no status write or persist, prints
the switchover guidance exactly when the status is `broken`, and ends the
`consume` call with `sys.exit(0)` — terminating the calling process with
success code 0 instead of returning to the caller. -/
theorem consume_reserve_fail_noop (c : Consumer) (t : Trial) (b : ChildBehavior)
    (st : Nat) :
    (Consumer.consume c t false b st).trial = t
    ∧ (Consumer.consume c t false b st).outcome = ConsumeOutcome.sysExit 0
    ∧ (Event.printReserveBroken t.shortId ∈ (Consumer.consume c t false b st).events
        ↔ t.status = Status.broken)
    ∧ (∀ s : Status,
        ((Consumer.consume c t false b st).events.count (Event.setStatus s) = 0
        ∧ (Consumer.consume c t false b st).events.count (Event.save s) = 0)) := by
  refine ⟨rfl, rfl, ?_, ?_⟩
  · by_cases h : t.status = Status.broken <;> simp [Consumer.consume, h]
  · intro s
    by_cases h : t.status = Status.broken <;>
      simp [Consumer.consume, h, List.count_eq_zero]

/-- C5: the code marks the trial running right after the persisted
reservation but performs no persist between that mark and the spawn of the
supervised child — the first five events are reserve, save, ensure working
directory, mark running, spawn, with no save of the running status among
them; the spec's "mark running, persist, then invoke" is not what the code
does. -/
theorem consume_running_unpersisted_before_spawn (c : Consumer) (t : Trial)
    (childStdout childStderr : List String) (code : Int) (beats st : Nat) :
    ((Consumer.consume c t true (.runs childStdout childStderr code beats) st).events.take 5
      = [Event.setStatus .reserved, Event.save .reserved,
         Event.ensureWorkingDir (c.root_working_dir ++ "/" ++ t.shortId),
         Event.setStatus .running, Event.spawn (pySplitSpace t.commandline)])
    ∧ ((Consumer.consume c t true (.runs childStdout childStderr code beats) st).events.take 5).count
        (Event.save Status.running) = 0 := by
  have h5 : (Consumer.consume c t true (.runs childStdout childStderr code beats) st).events.take 5
      = [Event.setStatus .reserved, Event.save .reserved,
         Event.ensureWorkingDir (c.root_working_dir ++ "/" ++ t.shortId),
         Event.setStatus .running, Event.spawn (pySplitSpace t.commandline)] := by
    by_cases h0 : code = 0 <;>
      simp [Consumer.consume, Consumer._consume, Consumer.launch_process, execute, h0,
            Trial.reserve, Trial.running]
  refine ⟨h5, ?_⟩
  rw [h5]
  simp [List.count_eq_zero]

/-- C6: in the supervisor's trace the two collectors and the exit-wait
jointly complete (`joinTasks`) before the exit code is read, the heartbeat
cancellation happens exactly once, immediately after the joint completion
and before the exit-code read, and no join, cancellation or exit-code read
occurs earlier in the trace. -/
theorem execute_order (t : Trial) (cap : Bool) (childStdout childStderr : List String)
    (code : Int) (beats st : Nat) :
    ∃ pre, (execute t cap childStdout childStderr code beats st).events
        = pre ++ [Event.joinTasks, Event.cancelHeartbeat, Event.readExitCode code]
      ∧ pre.count Event.joinTasks = 0
      ∧ pre.count Event.cancelHeartbeat = 0
      ∧ pre.count (Event.readExitCode code) = 0 := by
  refine ⟨[Event.spawn (pySplitSpace t.commandline)], rfl, ?_, ?_, ?_⟩ <;>
    simp [List.count_eq_zero]

/-- C7: on cancellation the heartbeat task performs exactly one persist
beyond the one of each completed iteration — `beats + 1` saves in total, the
last of them right before the cancellation is re-raised — whatever point
mid-sleep the cancellation arrives at, and the cancellation never surfaces
as an error to the supervisor: `execute` still returns the child's exit code
for every number of completed heartbeats. -/
theorem update_cancel_persists (st beats : Nat) (t : Trial) :
    ((update t st beats).2.count HbEvent.save = beats + 1)
    ∧ (∃ pre, (update t st beats).2 = pre ++ [HbEvent.save, HbEvent.reraiseCancel])
    ∧ (∀ (cap : Bool) (childStdout childStderr : List String) (code : Int),
        (execute t cap childStdout childStderr code beats st).code = code) := by
  obtain ⟨h1, h2⟩ := update_trace st beats t
  exact ⟨h1, h2, fun cap childStdout childStderr code => rfl⟩

/-- C8: each nonempty read from a stream is decoded and appended to the
matching buffer in arrival order until end-of-stream; the lines printed live
are exactly those appended lines when capture is disabled and nothing when
it is enabled; and in `execute` the stdout buffer depends only on the stdout
stream while the stderr buffer depends only on the stderr stream. -/
theorem log_stream_order_echo :
    (∀ (buf stream : List String) (capture : Bool),
      (log_stream buf stream capture).1
        = buf ++ (stream.filter (fun d => d ≠ "")).map decodeLine
      ∧ (log_stream buf stream capture).2
        = (if capture then [] else (stream.filter (fun d => d ≠ "")).map decodeLine))
    ∧ (∀ (t : Trial) (cap : Bool) (childStdout childStderr : List String)
        (code : Int) (beats st : Nat),
        (execute t cap childStdout childStderr code beats st).trial.stdoutLog
          = t.stdoutLog ++ (childStdout.filter (fun d => d ≠ "")).map decodeLine
        ∧ (execute t cap childStdout childStderr code beats st).trial.stderrLog
          = t.stderrLog ++ (childStderr.filter (fun d => d ≠ "")).map decodeLine) := by
  have hup : ∀ (t : Trial) (st : Nat) (beats : Nat),
      (update t st beats).1.stdoutLog = t.stdoutLog
      ∧ (update t st beats).1.stderrLog = t.stderrLog := by
    intro t st beats
    induction beats generalizing t with
    | zero => exact ⟨rfl, rfl⟩
    | succ k ih => exact ih _
  constructor
  · intro buf stream capture
    rw [log_stream_eq]
    exact ⟨rfl, rfl⟩
  · intro t cap childStdout childStderr code beats st
    unfold execute
    constructor
    · rw [(hup _ _ _).1]
      simp [log_stream_eq]
    · rw [(hup _ _ _).2]
      simp [log_stream_eq]

/-- C9 as stated is false on the code: for the command line `"echo  hi"`
(two spaces) the spawned argv keeps an empty field, while the whitespace
split the spec describes does not. -/
theorem execute_argv_not_whitespace_split :
    (execute { tEx with commandline := "echo  hi" } false [] [] 0 0 10).events
      = [Event.spawn ["echo", "", "hi"], Event.joinTasks, Event.cancelHeartbeat,
         Event.readExitCode 0]
    ∧ specWhitespaceSplit "echo  hi" = ["echo", "hi"]
    ∧ pySplitSpace "echo  hi" ≠ specWhitespaceSplit "echo  hi" :=
  ⟨by decide, by decide, by decide⟩

/-- C9 amended: the child is spawned with the command line split at each
single space character (Python `split(" ")`), which keeps empty fields for
consecutive spaces and does not split at other whitespace; it coincides with
the spec's whitespace split exactly on command lines whose only whitespace
is single spaces producing no empty fields. -/
theorem execute_argv_split (t : Trial) (cap : Bool)
    (childStdout childStderr : List String) (code : Int) (beats st : Nat) :
    ((execute t cap childStdout childStderr code beats st).events.take 1
      = [Event.spawn (pySplitSpace t.commandline)])
    ∧ (∀ s : String, (∀ c ∈ s.data, isPyWhitespace c → c = ' ') →
        (∀ piece ∈ pySplitSpace s, piece ≠ "") →
        pySplitSpace s = specWhitespaceSplit s) := by
  refine ⟨rfl, ?_⟩
  intro s hws hne
  unfold specWhitespaceSplit
  rw [splitAux_agree s.data [] hws]
  exact (List.filter_eq_self.mpr (by simpa using hne)).symm

/-- C9 amended witness: for `"echo hi"` the two splits agree on
`["echo", "hi"]`, and that split is the argv spawned. -/
theorem execute_argv_split_witness :
    ((execute tEx false [] [] 0 0 10).events.take 1
      = [Event.spawn (pySplitSpace "echo hi")])
    ∧ pySplitSpace "echo hi" = specWhitespaceSplit "echo hi" :=
  ⟨(execute_argv_split tEx false [] [] 0 0 10).1,
   (execute_argv_split tEx false [] [] 0 0 10).2 "echo hi" (by decide) (by decide)⟩

/-- C10: the `KLEIO_VERBOSITY` variable injected into the child environment
is `"0"` when the effective root logging level is `WARNING` (30), `"1"` for
`INFO` (20), `"2"` for `DEBUG` (10), and `"2"` for every other level. -/
theorem childEnv_verbosity :
    (∀ (base : List (String × String)) (trialId dbName dbType dbUri : String)
       (lvl : Nat),
       lookupVar (childEnv base trialId dbName dbType dbUri lvl) "KLEIO_VERBOSITY"
         = some (kleioVerbosity lvl))
    ∧ kleioVerbosity 30 = "0" ∧ kleioVerbosity 20 = "1" ∧ kleioVerbosity 10 = "2"
    ∧ (∀ lvl : Nat, lvl ≠ 30 → lvl ≠ 20 → lvl ≠ 10 → kleioVerbosity lvl = "2") := by
  refine ⟨?_, by decide, by decide, by decide, kleioVerbosity_default⟩
  intro base trialId dbName dbType dbUri lvl
  simp [childEnv, setVar, lookupVar, List.find?]

/-- C10 witness: at level 40 (`ERROR`) the injected verbosity is `"2"`. -/
theorem childEnv_verbosity_witness :
    lookupVar (childEnv [] "t" "n" "ty" "u" 40) "KLEIO_VERBOSITY" = some "2" := by
  have h := childEnv_verbosity
  rw [h.1 [] "t" "n" "ty" "u" 40, h.2.2.2.2 40 (by decide) (by decide) (by decide)]

end Kleio
